import Mathlib

/-!
Shallow embedding of `src/commands/tflint.ts` (TFLint command registration and
the Terraform Cloud run tree data provider) together with theorems settling the
frozen claims about it.

Conventions of the embedding:
* TypeScript optional values (`T | undefined`) become `Option T`.
* The JSON:API `included` array is a `List IncludedObject`; TypeScript `as X`
  casts do not change the runtime value, so every attribute field lives in one
  record and the per-resource attribute types are abbreviations of it.
* Effects (API requests, UI messages, telemetry) are collected in result
  records; `vscode.MarkdownString` is modelled as the ordered list of chunks
  passed to `appendMarkdown`.
-/

/-- A JSON:API resource reference (the `{ id, type }` inside a relationship's
`data`). Only the `id` is consulted by this code. -/
structure ResourceRef where
  id : String
  deriving DecidableEq

/-- A JSON:API relationship: an optional `data` resource reference. -/
structure Relationship where
  data : Option ResourceRef
  deriving DecidableEq

/-- Optional chaining `rel?.data?.id` over a possibly absent relationship. -/
def relRefId (rel : Option Relationship) : Option String :=
  (rel.bind fun r => r.data).map fun d => d.id

/-- Attribute record of an included object. The TypeScript source casts
`included.attributes` with `as PlanAttributes`, `as UserAttributes`, etc.;
such casts keep the runtime value, so all attribute fields used by the code
live in one record. `source` is optional because the code guards it for
truthiness before use. -/
structure IncludedAttributes where
  status : String := ""
  username : String := ""
  avatarUrl : String := ""
  senderUsername : String := ""
  senderAvatarUrl : String := ""
  commitSha : String := ""
  commitUrl : String := ""
  commitMessage : String := ""
  branch : String := ""
  identifier : String := ""
  cloneUrl : String := ""
  source : Option String := none
  deriving DecidableEq

abbrev PlanAttributes := IncludedAttributes
abbrev ApplyAttributes := IncludedAttributes
abbrev UserAttributes := IncludedAttributes
abbrev IngressAttributes := IncludedAttributes
abbrev ConfigurationVersionAttributes := IncludedAttributes

/-- Relationships of an included object; only `ingress-attributes` (present on
configuration versions) is consulted by this code. -/
structure IncludedRelationships where
  ingressAttributes : Option Relationship := none
  deriving DecidableEq

/-- One element of the JSON:API `included` array. -/
structure IncludedObject where
  type : String
  id : String
  attributes : IncludedAttributes := {}
  relationships : IncludedRelationships := {}
  deriving DecidableEq

/-- The cast `includedObject as ConfigurationVersion` keeps the whole object. -/
abbrev ConfigurationVersion := IncludedObject

/-- The relationships of a run consulted by the provider. -/
structure RunRelationships where
  configurationVersion : Option Relationship := none
  plan : Option Relationship := none
  apply : Option Relationship := none
  createdBy : Option Relationship := none
  deriving DecidableEq

/-- The run attributes consulted by the provider and the markdown formatter. -/
structure RunAttributes where
  message : String := ""
  status : String := ""
  source : String := ""
  triggerReason : String := ""
  createdAt : String := ""
  deriving DecidableEq

/-- A run resource from the `listRuns` response. -/
structure Run where
  id : String
  attributes : RunAttributes := {}
  relationships : RunRelationships := {}
  deriving DecidableEq

/-- The workspace attributes consulted by this code. -/
structure WorkspaceAttributes where
  name : String := ""
  executionMode : String := ""
  deriving DecidableEq

/-- The `WorkspaceTreeItem` fields consulted by this code. -/
structure WorkspaceTreeItem where
  id : String
  attributes : WorkspaceAttributes := {}
  deriving DecidableEq

/-- Modelled from the spec: lookup tables and helpers imported from outside
the excerpt (`RUN_SOURCE`, `TRIGGER_REASON`, `CONFIGURATION_SOURCE`,
`GetRunStatusIcon` — a theme icon represented here by its `id` string —
`GetRunStatusMessage`, `RelativeTimeFormat`). Their definitions are not part
of the source under verification, so they are kept as parameters. -/
structure ExternalTables where
  runSource : String → String
  triggerReason : String → String
  configurationSource : String → String
  getRunStatusIcon : String → String
  getRunStatusMessage : String → String
  relativeTimeFormat : String → String

/-- Function `findConfigurationVersionAttributes` from the source: scans `included` for
the object of type `configuration-versions` whose id equals
`run.relationships['configuration-version']?.data?.id` and returns the whole
object (cast `as ConfigurationVersion`). -/
def findConfigurationVersionAttributes (included : List IncludedObject) (run : Run) :
    Option ConfigurationVersion :=
  included.find? fun inc =>
    inc.type == "configuration-versions" &&
      some inc.id == relRefId run.relationships.configurationVersion

/-- Function `findPlanAttributes` from the source: scans `included` for the object of
type `plans` whose id equals `run.relationships.plan?.data?.id` and returns
its attributes (cast `as PlanAttributes`). -/
def findPlanAttributes (included : List IncludedObject) (run : Run) :
    Option PlanAttributes :=
  (included.find? fun inc =>
    inc.type == "plans" && some inc.id == relRefId run.relationships.plan).map
    fun plan => plan.attributes

/-- Function `findApplyAttributes` from the source: scans `included` for the object of
type `applies` whose id equals `run.relationships.apply?.data?.id` and returns
its attributes (cast `as ApplyAttributes`). -/
def findApplyAttributes (included : List IncludedObject) (run : Run) :
    Option ApplyAttributes :=
  (included.find? fun inc =>
    inc.type == "applies" && some inc.id == relRefId run.relationships.apply).map
    fun a => a.attributes

/-- Function `findCreatedByAttributes` from the source: scans `included` for the object
of type `users` whose id equals `run.relationships['created-by']?.data?.id`
and returns its attributes (cast `as UserAttributes`). -/
def findCreatedByAttributes (included : List IncludedObject) (run : Run) :
    Option UserAttributes :=
  (included.find? fun inc =>
    inc.type == "users" && some inc.id == relRefId run.relationships.createdBy).map
    fun u => u.attributes

/-- Function `findIngressAttributes` from the source: scans `included` for the object of
type `ingress-attributes` whose id equals
`cfgVersion.relationships['ingress-attributes']?.data?.id` — the reference
comes from the configuration version, not the run — and returns its
attributes (cast `as IngressAttributes`). -/
def findIngressAttributes (included : List IncludedObject) (cfgVersion : ConfigurationVersion) :
    Option IngressAttributes :=
  (included.find? fun inc =>
    inc.type == "ingress-attributes" &&
      some inc.id == relRefId cfgVersion.relationships.ingressAttributes).map
    fun i => i.attributes

/-- The common single-pass `(type, id)` scan all five lookup helpers perform. -/
def findByTypeAndId (included : List IncludedObject) (ty : String) (ref : Option String) :
    Option IncludedObject :=
  included.find? fun inc => inc.type == ty && some inc.id == ref

/-- Handle to the shared language-server client (type imported from
`vscode-languageclient`, opaque to this excerpt). -/
structure LanguageClient where
  handle : Nat
  deriving DecidableEq

/-- Handle to the telemetry reporter (type imported from
`@vscode/extension-telemetry`, opaque to this excerpt). -/
structure TelemetryReporter where
  handle : Nat
  deriving DecidableEq

/-- What a registered command's callback does when invoked. The only handler
in `TFLintCommands` awaits `terraform.tflint(this.client, this.reporter)`. -/
inductive CommandHandler where
  | terraformTflint (client : LanguageClient) (reporter : TelemetryReporter)
  deriving DecidableEq

/-- A registration returned by `vscode.commands.registerCommand`. -/
structure RegisteredCommand where
  name : String
  handler : CommandHandler
  deriving DecidableEq

/-- Class `TFLintCommands` after its constructor ran. -/
structure TFLintCommands where
  client : LanguageClient
  reporter : TelemetryReporter
  commands : List RegisteredCommand
  deriving DecidableEq

/-- Constructor of `TFLintCommands`: registers the single command
`terraform.tflint`, whose handler calls the external linter integration with
the shared client handle and the telemetry reporter. -/
def TFLintCommands.new (client : LanguageClient) (reporter : TelemetryReporter) :
    TFLintCommands :=
  { client := client, reporter := reporter,
    commands := [{ name := "terraform.tflint",
                   handler := CommandHandler.terraformTflint client reporter }] }

/-- Method `TFLintCommands.dispose`: `this.commands.forEach((c) => c.dispose())`.
It returns the registrations disposed, in order. -/
def TFLintCommands.dispose (t : TFLintCommands) : List RegisteredCommand :=
  t.commands

/-- JavaScript truthiness of an optional string (`undefined` and `""` are
falsy). -/
def jsTruthyStr (s : Option String) : Bool :=
  match s with
  | none => false
  | some str => !(str == "")

/-- JavaScript string coercion of a possibly-`undefined` string, as performed
by `x += y` when `x` is `undefined` (which yields `"undefined" + y`). -/
def jsStringOfOption (s : Option String) : String :=
  match s with
  | none => "undefined"
  | some str => str

/-- View-model for one run (class `RunTreeItem`). `label` and `description`
are set by the constructor, `iconPath` stores the theme icon id, and the
optional fields start out `undefined` and are decorated during the fetch. -/
structure RunTreeItem where
  id : String
  attributes : RunAttributes
  workspace : WorkspaceTreeItem
  label : String
  iconPath : String
  description : String
  createdBy : Option UserAttributes := none
  configurationVersion : Option ConfigurationVersionAttributes := none
  ingressAttributes : Option IngressAttributes := none
  planAttributes : Option PlanAttributes := none
  planId : Option String := none
  applyAttributes : Option ApplyAttributes := none
  applyId : Option String := none
  contextValue : Option String := none
  deriving DecidableEq

/-- Constructor of `RunTreeItem`: label is the run message, the icon comes
from `GetRunStatusIcon(status)` and the description is
`` `${attributes['trigger-reason']} ${attributes['created-at']}` ``. -/
def RunTreeItem.new (tables : ExternalTables) (id : String) (attributes : RunAttributes)
    (workspace : WorkspaceTreeItem) : RunTreeItem :=
  { id := id, attributes := attributes, workspace := workspace,
    label := attributes.message,
    iconPath := tables.getRunStatusIcon attributes.status,
    description := attributes.triggerReason ++ " " ++ attributes.createdAt }

/-- The status gate `['errored', 'canceled', 'finished'].includes(status)`
applied to plan and apply attributes in `getRuns`. -/
def statusGate (status : String) : Bool :=
  ["errored", "canceled", "finished"].contains status

/-- First decoration block of the `getRuns` loop body: resolve `createdBy` and,
when a configuration version matches, its attributes and ingress attributes. -/
def decorateRelated (included : List IncludedObject) (run : Run) (runItem : RunTreeItem) :
    RunTreeItem :=
  let runItem := { runItem with createdBy := findCreatedByAttributes included run }
  match findConfigurationVersionAttributes included run with
  | some cfgVersion =>
    { runItem with
        configurationVersion := some cfgVersion.attributes,
        ingressAttributes := findIngressAttributes included cfgVersion }
  | none => runItem

/-- Plan block of the `getRuns` loop body: when the run has a `plan`
relationship and the matched plan attributes pass the status gate, set
`planId`, `planAttributes` and `contextValue = 'hasPlan'`. -/
def planGateStep (included : List IncludedObject) (run : Run) (runItem : RunTreeItem) :
    RunTreeItem :=
  match run.relationships.plan with
  | none => runItem
  | some _ =>
    match findPlanAttributes included run with
    | none => runItem
    | some planAttributes =>
      if statusGate planAttributes.status then
        { runItem with
            planId := relRefId run.relationships.plan,
            planAttributes := some planAttributes,
            contextValue := some "hasPlan" }
      else runItem

/-- Apply block of the `getRuns` loop body: when the run has an `apply`
relationship and the matched apply attributes pass the status gate, set
`applyId`, `applyAttributes` and append `'hasApply'` to `contextValue` with
JavaScript `+=` semantics (an `undefined` left operand is coerced to the
string `"undefined"`). -/
def applyGateStep (included : List IncludedObject) (run : Run) (runItem : RunTreeItem) :
    RunTreeItem :=
  match run.relationships.apply with
  | none => runItem
  | some _ =>
    match findApplyAttributes included run with
    | none => runItem
    | some applyAttributes =>
      if statusGate applyAttributes.status then
        { runItem with
            applyId := relRefId run.relationships.apply,
            applyAttributes := some applyAttributes,
            contextValue := some (jsStringOfOption runItem.contextValue ++ "hasApply") }
      else runItem

/-- Body of the `for` loop in `getRuns`: build the `RunTreeItem` for one run
and, when the response carried an `included` array, decorate it; when
`runs.included` is absent the bare item is pushed unchanged (`continue`). -/
def buildRunItem (tables : ExternalTables) (includedOpt : Option (List IncludedObject))
    (run : Run) (activeWorkspace : WorkspaceTreeItem) : RunTreeItem :=
  let runItem := RunTreeItem.new tables run.id run.attributes activeWorkspace
  match includedOpt with
  | none => runItem
  | some included =>
    applyGateStep included run (planGateStep included run (decorateRelated included run runItem))

/-- Session handle returned by `vscode.authentication.getSession`. -/
structure Session where
  id : String
  deriving DecidableEq

/-- One request made through the generated API client. -/
inductive ApiCall where
  | listRuns (workspaceId : String) (pageSize : Nat) (includes : List String)
  deriving DecidableEq

/-- One UI-facing action performed by the provider's error handling. -/
inductive UiAction where
  | handleZodiosError (message : String)
  | handleAuthError
  | showWarningMessage (message : String)
  | showErrorMessage (message : String)
  deriving DecidableEq

/-- One telemetry emission of `getRuns`. -/
inductive TelemetryEvent where
  | fetchRuns (totalCount : Int)
  | exception
  deriving DecidableEq

/-- Shape of a value caught by the `catch` block of `getRuns`, as the source
discriminates it: a `ZodiosError`; an Axios error together with its HTTP
status, whether `isErrorFromAlias(apiClient.api, 'listRuns', error)` holds,
the rendered `apiErrorsToString(error.response.data.errors)`, and its
`Error` message (an Axios error is also an `instanceof Error`); any other
`Error`; a thrown string; or any other thrown value. -/
inductive CaughtError where
  | zodios
  | axios (status : Option Nat) (isListRunsAlias : Bool)
      (apiErrorsText : String) (errMessage : String)
  | jsError (errMessage : String)
  | thrownString (s : String)
  | otherValue
  deriving DecidableEq

/-- An element the provider hands to the tree view: a decorated run item, or
the literal placeholder object built when the page of runs is empty. -/
inductive TreeItem where
  | run (item : RunTreeItem)
  | placeholder (label : String) (tooltip : String) (contextValue : String)
  deriving DecidableEq

/-- Observable outcome of one `getRuns` (or `getChildren`) call: the items
returned plus the API requests, UI actions and telemetry it performed. -/
structure GetRunsResult where
  items : List TreeItem
  apiCalls : List ApiCall
  uiActions : List UiAction
  telemetry : List TelemetryEvent
  deriving DecidableEq

/-- The result with no items and no effects. -/
def emptyResult : GetRunsResult :=
  { items := [], apiCalls := [], uiActions := [], telemetry := [] }

/-- Pagination metadata of the `listRuns` response. -/
structure Pagination where
  totalCount : Int
  deriving DecidableEq

/-- Metadata of the `listRuns` response. -/
structure RunsMeta where
  pagination : Pagination
  deriving DecidableEq

/-- The `listRuns` response body. -/
structure RunsResponse where
  data : List Run
  included : Option (List IncludedObject) := none
  meta : RunsMeta := { pagination := { totalCount := 0 } }
  deriving DecidableEq

/-- The `catch` block of `getRuns`. `activeName` is the active workspace's
name and `workspaceId` the id of the workspace being listed; every branch
returns an empty item list after performing exactly one UI action. -/
def handleListRunsError (activeName : String) (workspaceId : String) (e : CaughtError) :
    GetRunsResult :=
  let message := "Failed to list runs in " ++ activeName ++ " (" ++ workspaceId ++ "): "
  match e with
  | CaughtError.zodios =>
    { emptyResult with uiActions := [UiAction.handleZodiosError message] }
  | CaughtError.axios status isAlias apiErrorsText errMessage =>
    if status == some 401 then
      { emptyResult with uiActions := [UiAction.handleAuthError] }
    else if status == some 404 then
      { emptyResult with uiActions := [UiAction.showWarningMessage
          ("Workspace " ++ activeName ++ " (" ++ workspaceId ++
            ") not found, please pick another one")] }
    else if isAlias then
      { emptyResult with
          uiActions := [UiAction.showErrorMessage (message ++ apiErrorsText)],
          telemetry := [TelemetryEvent.exception] }
    else
      { emptyResult with
          uiActions := [UiAction.showErrorMessage (message ++ errMessage)],
          telemetry := [TelemetryEvent.exception] }
  | CaughtError.jsError errMessage =>
    { emptyResult with
        uiActions := [UiAction.showErrorMessage (message ++ errMessage)],
        telemetry := [TelemetryEvent.exception] }
  | CaughtError.thrownString s =>
    { emptyResult with uiActions := [UiAction.showErrorMessage (message ++ s)] }
  | CaughtError.otherValue =>
    { emptyResult with uiActions := [UiAction.showErrorMessage message] }

/-- Inputs `getRuns` reads from its environment: the stored
`terraform.cloud.organization` value (default `''`), the optional
authentication session, and the outcome of the `listRuns` request. -/
structure GetRunsEnv where
  organization : String
  session : Option Session
  listRunsOutcome : Except CaughtError RunsResponse

/-- Method `RunTreeDataProvider.getRuns`. Guards: empty organization, missing
session, and a missing active workspace each yield an empty result without an
API request. Otherwise exactly one `listRuns` request is made for the
workspace with page size 100 and the four related resources included; an
empty page yields the `No runs found` placeholder, a non-empty page one
decorated `RunTreeItem` per run, and a thrown error is handled by
`handleListRunsError`. -/
def getRuns (tables : ExternalTables) (env : GetRunsEnv)
    (activeWorkspace : Option WorkspaceTreeItem) (workspace : WorkspaceTreeItem) :
    GetRunsResult :=
  if env.organization == "" then emptyResult
  else
    match env.session with
    | none => emptyResult
    | some _ =>
      match activeWorkspace with
      | none => emptyResult
      | some aw =>
        let call := ApiCall.listRuns workspace.id 100
          ["plan", "apply", "configuration_version.ingress_attributes", "created_by"]
        match env.listRunsOutcome with
        | Except.error e =>
          { handleListRunsError aw.attributes.name workspace.id e with apiCalls := [call] }
        | Except.ok runs =>
          let fetchTelemetry := [TelemetryEvent.fetchRuns runs.meta.pagination.totalCount]
          if runs.data.isEmpty then
            { items := [TreeItem.placeholder
                ("No runs found for " ++ aw.attributes.name)
                ("No runs found for " ++ aw.attributes.name) "empty"],
              apiCalls := [call], uiActions := [], telemetry := fetchTelemetry }
          else
            { items := runs.data.map fun run =>
                TreeItem.run (buildRunItem tables runs.included run aw),
              apiCalls := [call], uiActions := [], telemetry := fetchTelemetry }

/-- Handles the provider closes over (`ctx`, `reporter`, `outputChannel`),
opaque to this excerpt; carried to state the frame condition of `refresh`. -/
structure ProviderHandles where
  ctx : Nat
  reporter : Nat
  outputChannel : Nat
  deriving DecidableEq

/-- Mutable state of `RunTreeDataProvider`: the selected workspace plus the
handles it closes over. -/
structure ProviderState where
  activeWorkspace : Option WorkspaceTreeItem
  handles : ProviderHandles
  deriving DecidableEq

/-- An event fired by the provider. -/
inductive ProviderEvent where
  | didChangeTreeData
  deriving DecidableEq

/-- Method `RunTreeDataProvider.refresh`: store the given workspace item
(`undefined` when called with no argument) as the active workspace and fire
the tree-data-change event. -/
def RunTreeDataProvider.refresh (state : ProviderState)
    (workspaceItem : Option WorkspaceTreeItem) : ProviderState × List ProviderEvent :=
  ({ state with activeWorkspace := workspaceItem }, [ProviderEvent.didChangeTreeData])

/-- Method `RunTreeDataProvider.getTreeItem`: the identity. -/
def RunTreeDataProvider.getTreeItem (element : TreeItem) : TreeItem :=
  element

/-- Method `RunTreeDataProvider.getChildren`: an element is echoed back as a
singleton; with no element and no active workspace the list is empty;
otherwise the runs are fetched via `getRuns`. -/
def RunTreeDataProvider.getChildren (tables : ExternalTables) (state : ProviderState)
    (env : GetRunsEnv) (element : Option TreeItem) : GetRunsResult :=
  match element with
  | some el => { emptyResult with items := [el] }
  | none =>
    match state.activeWorkspace with
    | none => emptyResult
    | some aw => getRuns tables env (some aw) aw

/-- Creator header chunk: `<img src="...avatar-url..." width="20"> **username**`. -/
def creatorChunk (createdBy : UserAttributes) : String :=
  "<img src=\"" ++ createdBy.avatarUrl ++ "\" width=\"20\"> **" ++
    createdBy.username ++ "**"

/-- VCS sender header chunk:
`<img src="...sender-avatar-url..." width="20"> **sender-username**`. -/
def senderChunk (ia : IngressAttributes) : String :=
  "<img src=\"" ++ ia.senderAvatarUrl ++ "\" width=\"20\"> **" ++
    ia.senderUsername ++ "**"

/-- Headline chunk: `` ` ${triggerReason} from ${RUN_SOURCE[source]} ${createdAtTime}` ``. -/
def headlineChunk (tables : ExternalTables) (item : RunTreeItem) : String :=
  " " ++ tables.triggerReason item.attributes.triggerReason ++ " from " ++
    tables.runSource item.attributes.source ++ " " ++
    tables.relativeTimeFormat item.attributes.createdAt

/-- Run-id/status table chunk appended unconditionally after the headline. -/
def statusTableChunk (tables : ExternalTables) (item : RunTreeItem) : String :=
  "\n\n-----\n_____\n| | |\n-:|--\n| **Run ID**   | `" ++ item.id ++
    "` |\n| **Status** | $(" ++ tables.getRunStatusIcon item.attributes.status ++
    ") " ++ tables.getRunStatusMessage item.attributes.status ++ " |\n"

/-- Detailed configuration/commit rows emitted when ingress attributes and a
configuration version with a truthy source were resolved. `src` is the
configuration version's source; the commit sha is blindly shortened to 8
characters and only the first line of the commit message is shown. -/
def detailedConfigChunk (tables : ExternalTables) (ia : IngressAttributes)
    (src : String) : String :=
  "| **Configuration** | From " ++ tables.configurationSource src ++
    " by <img src=\"" ++ ia.senderAvatarUrl ++ "\" width=\"20\"> " ++
    ia.senderUsername ++ " **Branch** " ++ ia.branch ++ " **Repo** [" ++
    ia.identifier ++ "](" ++ ia.cloneUrl ++ ") |\n| **Commit** | [" ++
    ia.commitSha.take 8 ++ "](" ++ ia.commitUrl ++ "): " ++
    (ia.commitMessage.splitOn "\n").headD "" ++ " |\n"

/-- Plain configuration row `| **Configuration** | From ${item.attributes.source} |`. -/
def plainConfigChunk (item : RunTreeItem) : String :=
  "| **Configuration** | From " ++ item.attributes.source ++ " |\n"

/-- Trigger and execution-mode rows appended unconditionally at the end. -/
def footerChunk (tables : ExternalTables) (item : RunTreeItem) : String :=
  "| **Trigger** | " ++ tables.triggerReason item.attributes.triggerReason ++
    " |\n| **Execution Mode** | " ++ item.workspace.attributes.executionMode ++ " |\n"

/-- Header section of `runMarkdown`: creator if resolved, else VCS sender if
ingress attributes were resolved, else nothing. -/
def headerChunks (item : RunTreeItem) : List String :=
  match item.createdBy with
  | some createdBy => [creatorChunk createdBy]
  | none =>
    match item.ingressAttributes with
    | some ia => [senderChunk ia]
    | none => []

/-- Configuration section of `runMarkdown`: the detailed rows when
`item.ingressAttributes && item.configurationVersion &&
item.configurationVersion.source` is truthy, else the plain row. -/
def configChunks (tables : ExternalTables) (item : RunTreeItem) : List String :=
  match item.ingressAttributes, item.configurationVersion with
  | some ia, some cv =>
    if jsTruthyStr cv.source then [detailedConfigChunk tables ia (cv.source.getD "")]
    else [plainConfigChunk item]
  | _, _ => [plainConfigChunk item]

/-- Function `runMarkdown`: the tooltip `MarkdownString`, modelled as the
ordered list of chunks passed to `appendMarkdown`. -/
def runMarkdown (tables : ExternalTables) (item : RunTreeItem) : List String :=
  headerChunks item ++ [headlineChunk tables item, statusTableChunk tables item] ++
    configChunks tables item ++ [footerChunk tables item]

/-- Method `RunTreeDataProvider.resolveTreeItem`: attach the markdown tooltip
built from the element. -/
def RunTreeDataProvider.resolveTreeItem (tables : ExternalTables) (element : RunTreeItem) :
    List String :=
  runMarkdown tables element

/-- Condition (stated from the claim) under which the plan-related fields are
set for one run of a fetched page: the response carried an `included` array,
the run has a `plan` relationship, and the matched plan attributes have
status `errored`, `canceled` or `finished`. -/
def planQualifiesOn (included : List IncludedObject) (run : Run) : Bool :=
  run.relationships.plan.isSome &&
    match findPlanAttributes included run with
    | some planAttributes => statusGate planAttributes.status
    | none => false

/-- Plan qualification lifted to an optional `included` array. -/
def planQualifies (includedOpt : Option (List IncludedObject)) (run : Run) : Bool :=
  match includedOpt with
  | none => false
  | some included => planQualifiesOn included run

/-- Condition (stated from the claim) under which the apply-related fields are
set for one run of a fetched page. -/
def applyQualifiesOn (included : List IncludedObject) (run : Run) : Bool :=
  run.relationships.apply.isSome &&
    match findApplyAttributes included run with
    | some applyAttributes => statusGate applyAttributes.status
    | none => false

/-- Apply qualification lifted to an optional `included` array. -/
def applyQualifies (includedOpt : Option (List IncludedObject)) (run : Run) : Bool :=
  match includedOpt with
  | none => false
  | some included => applyQualifiesOn included run

/-- Concrete external tables for evaluating witnesses. -/
def tablesEx : ExternalTables :=
  { runSource := id, triggerReason := id, configurationSource := id,
    getRunStatusIcon := id, getRunStatusMessage := id, relativeTimeFormat := id }

/-- Concrete workspace for evaluating witnesses. -/
def wsEx : WorkspaceTreeItem :=
  { id := "ws-1", attributes := { name := "my-workspace", executionMode := "remote" } }

/-- Concrete included configuration-version object whose relationships carry an
ingress-attributes reference. -/
def cvObjEx : IncludedObject :=
  { type := "configuration-versions", id := "cv-1",
    relationships := { ingressAttributes := some { data := some { id := "ing-1" } } } }

/-- Concrete run referencing `cvObjEx` through its configuration-version
relationship. -/
def runEx : Run :=
  { id := "run-1",
    relationships := { configurationVersion := some { data := some { id := "cv-1" } } } }

/-- Environment with an empty stored organization name. -/
def envEmptyOrg : GetRunsEnv :=
  { organization := "", session := some { id := "sess" },
    listRunsOutcome := Except.ok { data := [] } }

/-- Environment with no authentication session. -/
def envNoSession : GetRunsEnv :=
  { organization := "hashicorp", session := none,
    listRunsOutcome := Except.ok { data := [] } }

/-- Environment whose `listRuns` request succeeds with an empty page. -/
def envOkEmpty : GetRunsEnv :=
  { organization := "hashicorp", session := some { id := "sess" },
    listRunsOutcome := Except.ok { data := [] } }

/-- Provider state with no selected workspace. -/
def stateNoWs : ProviderState :=
  { activeWorkspace := none, handles := { ctx := 0, reporter := 1, outputChannel := 2 } }

/-- Concrete creator attributes. -/
def userEx : UserAttributes :=
  { username := "alice", avatarUrl := "https://example.com/a.png" }

/-- Concrete ingress attributes. -/
def ingressEx : IngressAttributes :=
  { senderUsername := "bob", senderAvatarUrl := "https://example.com/b.png",
    commitSha := "0123456789abcdef", commitUrl := "https://example.com/c",
    commitMessage := "first line\nsecond line", branch := "main",
    identifier := "org/repo", cloneUrl := "https://example.com/r.git" }

/-- Concrete configuration-version attributes with a truthy source. -/
def cfgAttrsEx : ConfigurationVersionAttributes :=
  { source := some "github" }

/-- Concrete fully-decorated run tree item. -/
def itemEx : RunTreeItem :=
  { id := "run-1",
    attributes := { message := "update vpc", status := "applied", source := "tfe-api",
                    triggerReason := "manual", createdAt := "2024-01-01" },
    workspace := wsEx, label := "update vpc", iconPath := "check",
    description := "manual 2024-01-01",
    createdBy := some userEx, configurationVersion := some cfgAttrsEx,
    ingressAttributes := some ingressEx }

/-- Comparing a present id against an absent reference is `false`. -/
theorem beq_some_none_eq_false (s : String) :
    (some s == (none : Option String)) = false := rfl

/-- With an absent reference no element of the array can match, so the common
scan returns `none`. -/
theorem findByTypeAndId_none (included : List IncludedObject) (ty : String) :
    findByTypeAndId included ty none = none := by
  unfold findByTypeAndId
  rw [List.find?_eq_none]
  intro x _
  simp [beq_some_none_eq_false]

/-- When the scan of the common predicate succeeds, the reference it compared
against was present. -/
theorem ref_isSome_of_find (included : List IncludedObject) (ty : String)
    (ref : Option String) (obj : IncludedObject)
    (h : (included.find? fun inc => inc.type == ty && some inc.id == ref) = some obj) :
    ref.isSome = true := by
  have hp := List.find?_some h
  rw [Bool.and_eq_true] at hp
  cases ref with
  | none => rw [beq_some_none_eq_false] at hp; exact absurd hp.2 (by simp)
  | some r => rfl

/-- String-literal evaluation of the JavaScript append `undefined + 'hasApply'`. -/
theorem undefined_append_hasApply : "undefined" ++ "hasApply" = "undefinedhasApply" := rfl

/-- String-literal evaluation of `'hasPlan' + 'hasApply'`. -/
theorem hasPlan_append_hasApply : "hasPlan" ++ "hasApply" = "hasPlanhasApply" := rfl

/-- Characterization of the plan block: it is the identity unless the plan
qualification condition holds, in which case it sets exactly the three
plan-related fields. -/
theorem planGateStep_eq (included : List IncludedObject) (run : Run) (item : RunTreeItem) :
    planGateStep included run item =
      if planQualifiesOn included run then
        { item with
            planId := relRefId run.relationships.plan,
            planAttributes := findPlanAttributes included run,
            contextValue := some "hasPlan" }
      else item := by
  unfold planGateStep planQualifiesOn
  cases hp : run.relationships.plan with
  | none => simp
  | some rel =>
    cases hf : findPlanAttributes included run with
    | none => simp
    | some pa =>
      by_cases hs : statusGate pa.status
      · simp [hs]
      · simp [hs]

/-- Characterization of the apply block: it is the identity unless the apply
qualification condition holds, in which case it sets exactly the three
apply-related fields (appending to `contextValue` with JavaScript `+=`). -/
theorem applyGateStep_eq (included : List IncludedObject) (run : Run) (item : RunTreeItem) :
    applyGateStep included run item =
      if applyQualifiesOn included run then
        { item with
            applyId := relRefId run.relationships.apply,
            applyAttributes := findApplyAttributes included run,
            contextValue := some (jsStringOfOption item.contextValue ++ "hasApply") }
      else item := by
  unfold applyGateStep applyQualifiesOn
  cases hp : run.relationships.apply with
  | none => simp
  | some rel =>
    cases hf : findApplyAttributes included run with
    | none => simp
    | some pa =>
      by_cases hs : statusGate pa.status
      · simp [hs]
      · simp [hs]

/-- The first decoration block leaves the plan, apply and context fields
untouched. -/
theorem decorateRelated_frame (included : List IncludedObject) (run : Run)
    (item : RunTreeItem) :
    (decorateRelated included run item).planId = item.planId ∧
    (decorateRelated included run item).planAttributes = item.planAttributes ∧
    (decorateRelated included run item).applyId = item.applyId ∧
    (decorateRelated included run item).applyAttributes = item.applyAttributes ∧
    (decorateRelated included run item).contextValue = item.contextValue := by
  unfold decorateRelated
  cases findConfigurationVersionAttributes included run <;> simp

/-- Plan attributes matched for a run, over an optional `included` array. -/
def findPlanOpt (includedOpt : Option (List IncludedObject)) (run : Run) :
    Option PlanAttributes :=
  includedOpt.bind fun included => findPlanAttributes included run

/-- Apply attributes matched for a run, over an optional `included` array. -/
def findApplyOpt (includedOpt : Option (List IncludedObject)) (run : Run) :
    Option ApplyAttributes :=
  includedOpt.bind fun included => findApplyAttributes included run

/-- The constructor leaves every optional field `undefined`. -/
theorem RunTreeItem_new_opt_fields (tables : ExternalTables) (i : String)
    (attrs : RunAttributes) (ws : WorkspaceTreeItem) :
    (RunTreeItem.new tables i attrs ws).planId = none ∧
    (RunTreeItem.new tables i attrs ws).planAttributes = none ∧
    (RunTreeItem.new tables i attrs ws).applyId = none ∧
    (RunTreeItem.new tables i attrs ws).applyAttributes = none ∧
    (RunTreeItem.new tables i attrs ws).contextValue = none :=
  ⟨rfl, rfl, rfl, rfl, rfl⟩

/-- Field-level characterization of the loop body: the plan fields are set
exactly under plan qualification, the apply fields exactly under apply
qualification, and the context value takes one of four values depending on
which gates passed. -/
theorem buildRunItem_fields (tables : ExternalTables)
    (includedOpt : Option (List IncludedObject)) (run : Run) (aw : WorkspaceTreeItem) :
    (buildRunItem tables includedOpt run aw).planId =
      (if planQualifies includedOpt run then relRefId run.relationships.plan else none) ∧
    (buildRunItem tables includedOpt run aw).planAttributes =
      (if planQualifies includedOpt run then findPlanOpt includedOpt run else none) ∧
    (buildRunItem tables includedOpt run aw).applyId =
      (if applyQualifies includedOpt run then relRefId run.relationships.apply else none) ∧
    (buildRunItem tables includedOpt run aw).applyAttributes =
      (if applyQualifies includedOpt run then findApplyOpt includedOpt run else none) ∧
    (buildRunItem tables includedOpt run aw).contextValue =
      (match planQualifies includedOpt run, applyQualifies includedOpt run with
       | false, false => none
       | true, false => some "hasPlan"
       | true, true => some "hasPlanhasApply"
       | false, true => some "undefinedhasApply") := by
  cases includedOpt with
  | none =>
    simp [buildRunItem, planQualifies, applyQualifies, RunTreeItem.new]
  | some included =>
    have hd := decorateRelated_frame included run (RunTreeItem.new tables run.id run.attributes aw)
    have hn := RunTreeItem_new_opt_fields tables run.id run.attributes aw
    simp only [buildRunItem, planQualifies, applyQualifies, findPlanOpt, findApplyOpt,
      Option.some_bind, planGateStep_eq, applyGateStep_eq]
    rcases Bool.eq_false_or_eq_true (planQualifiesOn included run) with hb1 | hb1 <;>
      rcases Bool.eq_false_or_eq_true (applyQualifiesOn included run) with hb2 | hb2 <;>
      simp [hb1, hb2, hd.1, hd.2.1, hd.2.2.1, hd.2.2.2.1, hd.2.2.2.2,
        hn.1, hn.2.1, hn.2.2.1, hn.2.2.2.1, hn.2.2.2.2,
        jsStringOfOption, hasPlan_append_hasApply, undefined_append_hasApply]

/-- When the plan qualification holds, the plan relationship's referenced id is
present (it equals the id of the matched included object). -/
theorem relRefId_plan_isSome (included : List IncludedObject) (run : Run)
    (h : planQualifiesOn included run = true) :
    (relRefId run.relationships.plan).isSome = true := by
  unfold planQualifiesOn at h
  rw [Bool.and_eq_true] at h
  obtain ⟨h1, h2⟩ := h
  cases hf : findPlanAttributes included run with
  | none => rw [hf] at h2; simp at h2
  | some pa =>
    unfold findPlanAttributes at hf
    rw [Option.map_eq_some'] at hf
    obtain ⟨obj, hobj, _⟩ := hf
    exact ref_isSome_of_find included "plans" _ obj hobj

/-- When the apply qualification holds, the apply relationship's referenced id
is present. -/
theorem relRefId_apply_isSome (included : List IncludedObject) (run : Run)
    (h : applyQualifiesOn included run = true) :
    (relRefId run.relationships.apply).isSome = true := by
  unfold applyQualifiesOn at h
  rw [Bool.and_eq_true] at h
  obtain ⟨h1, h2⟩ := h
  cases hf : findApplyAttributes included run with
  | none => rw [hf] at h2; simp at h2
  | some pa =>
    unfold findApplyAttributes at hf
    rw [Option.map_eq_some'] at hf
    obtain ⟨obj, hobj, _⟩ := hf
    exact ref_isSome_of_find included "applies" _ obj hobj

/-- When the plan qualification holds, some plan attributes were matched. -/
theorem findPlanOpt_isSome (includedOpt : Option (List IncludedObject)) (run : Run)
    (h : planQualifies includedOpt run = true) :
    (findPlanOpt includedOpt run).isSome = true := by
  cases includedOpt with
  | none => simp [planQualifies] at h
  | some included =>
    simp only [planQualifies] at h
    unfold planQualifiesOn at h
    rw [Bool.and_eq_true] at h
    obtain ⟨h1, h2⟩ := h
    cases hf : findPlanAttributes included run with
    | none => rw [hf] at h2; simp at h2
    | some pa => simp [findPlanOpt, hf]

/-- When the apply qualification holds, some apply attributes were matched. -/
theorem findApplyOpt_isSome (includedOpt : Option (List IncludedObject)) (run : Run)
    (h : applyQualifies includedOpt run = true) :
    (findApplyOpt includedOpt run).isSome = true := by
  cases includedOpt with
  | none => simp [applyQualifies] at h
  | some included =>
    simp only [applyQualifies] at h
    unfold applyQualifiesOn at h
    rw [Bool.and_eq_true] at h
    obtain ⟨h1, h2⟩ := h
    cases hf : findApplyAttributes included run with
    | none => rw [hf] at h2; simp at h2
    | some pa => simp [findApplyOpt, hf]

/-- The common scan, characterized the way the claims phrase it: `none` when
the reference is absent, otherwise the first element matching the expected
type whose id equals the referenced id. -/
theorem findByTypeAndId_eq (included : List IncludedObject) (ty : String)
    (ref : Option String) :
    findByTypeAndId included ty ref =
      match ref with
      | none => none
      | some r => included.find? fun inc => inc.type == ty && inc.id == r := by
  cases ref with
  | none => exact findByTypeAndId_none included ty
  | some r => rfl

/-- C1: each relational lookup helper is a single pass over the `included`
array returning the first element whose `type` equals the helper's expected
resource type and whose `id` equals the id referenced from the corresponding
relationship of the run (for ingress, of the configuration version),
projected as the source projects it — the `attributes` for the plan, apply,
created-by and ingress helpers, the whole object for the configuration
version; when no element matches, or the relationship, its `data`, or its id
is absent, the helper returns `none`. -/
theorem C1_lookup_helpers_single_pass (included : List IncludedObject) (run : Run)
    (cfgVersion : ConfigurationVersion) :
    (findConfigurationVersionAttributes included run =
      match relRefId run.relationships.configurationVersion with
      | none => none
      | some r =>
        included.find? fun inc => inc.type == "configuration-versions" && inc.id == r) ∧
    (findPlanAttributes included run =
      match relRefId run.relationships.plan with
      | none => none
      | some r =>
        (included.find? fun inc => inc.type == "plans" && inc.id == r).map
          fun plan => plan.attributes) ∧
    (findApplyAttributes included run =
      match relRefId run.relationships.apply with
      | none => none
      | some r =>
        (included.find? fun inc => inc.type == "applies" && inc.id == r).map
          fun a => a.attributes) ∧
    (findCreatedByAttributes included run =
      match relRefId run.relationships.createdBy with
      | none => none
      | some r =>
        (included.find? fun inc => inc.type == "users" && inc.id == r).map
          fun u => u.attributes) ∧
    (findIngressAttributes included cfgVersion =
      match relRefId cfgVersion.relationships.ingressAttributes with
      | none => none
      | some r =>
        (included.find? fun inc => inc.type == "ingress-attributes" && inc.id == r).map
          fun i => i.attributes) := by
  refine ⟨?_, ?_, ?_, ?_, ?_⟩
  · show findByTypeAndId included "configuration-versions"
      (relRefId run.relationships.configurationVersion) = _
    rw [findByTypeAndId_eq]
  · show (findByTypeAndId included "plans" (relRefId run.relationships.plan)).map
      (fun plan => plan.attributes) = _
    rw [findByTypeAndId_eq]
    cases relRefId run.relationships.plan <;> rfl
  · show (findByTypeAndId included "applies" (relRefId run.relationships.apply)).map
      (fun a => a.attributes) = _
    rw [findByTypeAndId_eq]
    cases relRefId run.relationships.apply <;> rfl
  · show (findByTypeAndId included "users" (relRefId run.relationships.createdBy)).map
      (fun u => u.attributes) = _
    rw [findByTypeAndId_eq]
    cases relRefId run.relationships.createdBy <;> rfl
  · show (findByTypeAndId included "ingress-attributes"
      (relRefId cfgVersion.relationships.ingressAttributes)).map
      (fun i => i.attributes) = _
    rw [findByTypeAndId_eq]
    cases relRefId cfgVersion.relationships.ingressAttributes <;> rfl

/-- C2 counterexample: the claim says each helper "returns the matched
object's typed attributes", but at this concrete input the configuration
version helper returns the whole matched included object, whose
`relationships` still carry the ingress-attributes reference `ing-1` —
information that is not part of the typed attributes (and which
`findIngressAttributes` then consumes). -/
theorem C2_counterexample_returns_whole_object :
    findConfigurationVersionAttributes [cvObjEx] runEx = some cvObjEx ∧
    cvObjEx.relationships.ingressAttributes = some { data := some { id := "ing-1" } } := by
  exact ⟨by decide, rfl⟩

/-- C2 amended: there are five relational lookup helpers, not four; each
performs the same single `(type, id)` scan of the `included` array; the plan,
apply, created-by and ingress helpers return the matched object's typed
attributes, while the configuration-version helper returns the whole matched
object; and the ingress helper's reference comes from the configuration
version's relationships rather than the run's. -/
theorem C2_amended_five_helpers (included : List IncludedObject) (run : Run)
    (cfgVersion : ConfigurationVersion) :
    findConfigurationVersionAttributes included run =
      findByTypeAndId included "configuration-versions"
        (relRefId run.relationships.configurationVersion) ∧
    findPlanAttributes included run =
      (findByTypeAndId included "plans" (relRefId run.relationships.plan)).map
        (fun plan => plan.attributes) ∧
    findApplyAttributes included run =
      (findByTypeAndId included "applies" (relRefId run.relationships.apply)).map
        (fun a => a.attributes) ∧
    findCreatedByAttributes included run =
      (findByTypeAndId included "users" (relRefId run.relationships.createdBy)).map
        (fun u => u.attributes) ∧
    findIngressAttributes included cfgVersion =
      (findByTypeAndId included "ingress-attributes"
        (relRefId cfgVersion.relationships.ingressAttributes)).map
        (fun i => i.attributes) :=
  ⟨rfl, rfl, rfl, rfl, rfl⟩

/-- C3 counterexample: the catch handler does not distinguish exactly three
known error shapes — these five concrete caught values take five pairwise
distinct handling paths (a `ZodiosError` delegates to `handleZodiosError`, a
401 Axios error delegates to `handleAuthError`, a 404 Axios error shows a
warning, a thrown string and an arbitrary thrown value each show an error
message), so caught strings and arbitrary values also receive failure
handling. -/
theorem C3_counterexample_more_than_three_shapes :
    (handleListRunsError "ws" "ws-1" CaughtError.zodios).uiActions =
      [UiAction.handleZodiosError "Failed to list runs in ws (ws-1): "] ∧
    (handleListRunsError "ws" "ws-1" (CaughtError.axios (some 401) false "" "m")).uiActions =
      [UiAction.handleAuthError] ∧
    (handleListRunsError "ws" "ws-1" (CaughtError.axios (some 404) false "" "m")).uiActions =
      [UiAction.showWarningMessage "Workspace ws (ws-1) not found, please pick another one"] ∧
    (handleListRunsError "ws" "ws-1" (CaughtError.thrownString "boom")).uiActions =
      [UiAction.showErrorMessage "Failed to list runs in ws (ws-1): boom"] ∧
    (handleListRunsError "ws" "ws-1" CaughtError.otherValue).uiActions =
      [UiAction.showErrorMessage "Failed to list runs in ws (ws-1): "] :=
  ⟨rfl, rfl, rfl, rfl, rfl⟩

/-- C3 amended: the catch handler distinguishes the caught value's shape as
`ZodiosError`, Axios error (with sub-cases 401, 404 and the `listRuns` alias),
generic `Error`, or thrown string, with a catch-all for anything else — more
than three shapes; every handled path performs exactly one UI action (a
displayed message or a delegated error handler), performs no further API
request, and yields an empty item list. -/
theorem C3_amended_error_paths (activeName : String) (workspaceId : String)
    (e : CaughtError) :
    (handleListRunsError activeName workspaceId e).items = [] ∧
    (handleListRunsError activeName workspaceId e).apiCalls = [] ∧
    (handleListRunsError activeName workspaceId e).uiActions.length = 1 := by
  cases e with
  | zodios => exact ⟨rfl, rfl, rfl⟩
  | axios status isAlias apiErrorsText errMessage =>
    simp only [handleListRunsError]
    rcases Bool.eq_false_or_eq_true (status == some 401) with h1 | h1 <;>
      rcases Bool.eq_false_or_eq_true (status == some 404) with h2 | h2 <;>
      cases isAlias <;>
      simp [h1, h2, emptyResult]
  | jsError errMessage => exact ⟨rfl, rfl, rfl⟩
  | thrownString s => exact ⟨rfl, rfl, rfl⟩
  | otherValue => exact ⟨rfl, rfl, rfl⟩

/-- C4: `runMarkdown` branches on which optional related attributes were
resolved — it opens with the creator's avatar/username chunk when `createdBy`
is resolved, otherwise with the VCS sender's avatar/username chunk when
`ingressAttributes` is resolved, otherwise with neither; and it emits the
commit/branch/repository configuration rows exactly when both
`ingressAttributes` and a `configurationVersion` with a (truthy) `source` are
resolved, otherwise the plain `From <run source>` configuration row. -/
theorem C4_runMarkdown_branches (tables : ExternalTables) (item : RunTreeItem) :
    (∀ u, item.createdBy = some u →
      runMarkdown tables item =
        creatorChunk u :: headlineChunk tables item :: statusTableChunk tables item ::
          (configChunks tables item ++ [footerChunk tables item])) ∧
    (∀ ia, item.createdBy = none → item.ingressAttributes = some ia →
      runMarkdown tables item =
        senderChunk ia :: headlineChunk tables item :: statusTableChunk tables item ::
          (configChunks tables item ++ [footerChunk tables item])) ∧
    (item.createdBy = none → item.ingressAttributes = none →
      runMarkdown tables item =
        headlineChunk tables item :: statusTableChunk tables item ::
          (configChunks tables item ++ [footerChunk tables item])) ∧
    (∀ ia cv, item.ingressAttributes = some ia → item.configurationVersion = some cv →
      jsTruthyStr cv.source = true →
      configChunks tables item = [detailedConfigChunk tables ia (cv.source.getD "")]) ∧
    ((item.ingressAttributes = none ∨
        jsTruthyStr (item.configurationVersion.bind fun cv => cv.source) = false) →
      configChunks tables item = [plainConfigChunk item]) := by
  refine ⟨?_, ?_, ?_, ?_, ?_⟩
  · intro u hu
    simp [runMarkdown, headerChunks, hu]
  · intro ia hc hi
    simp [runMarkdown, headerChunks, hc, hi]
  · intro hc hi
    simp [runMarkdown, headerChunks, hc, hi]
  · intro ia cv hia hcv ht
    simp [configChunks, hia, hcv, ht]
  · intro h
    rcases h with h | h
    · cases hcv : item.configurationVersion <;> simp [configChunks, h, hcv]
    · cases hia : item.ingressAttributes with
      | none => cases hcv : item.configurationVersion <;> simp [configChunks, hia, hcv]
      | some ia =>
        cases hcv : item.configurationVersion with
        | none => simp [configChunks, hia, hcv]
        | some cv =>
          rw [hcv] at h
          simp only [Option.some_bind] at h
          simp [configChunks, hia, hcv, h]

/-- C4 witness: at the concrete fully-decorated item the tooltip opens with
the creator chunk, and the configuration section is the detailed rows for the
resolved ingress attributes and configuration source. -/
theorem C4_runMarkdown_branches_witness :
    runMarkdown tablesEx itemEx =
      creatorChunk userEx :: headlineChunk tablesEx itemEx ::
        statusTableChunk tablesEx itemEx ::
        (configChunks tablesEx itemEx ++ [footerChunk tablesEx itemEx]) ∧
    configChunks tablesEx itemEx =
      [detailedConfigChunk tablesEx ingressEx (cfgAttrsEx.source.getD "")] :=
  ⟨(C4_runMarkdown_branches tablesEx itemEx).1 userEx rfl,
   (C4_runMarkdown_branches tablesEx itemEx).2.2.2.1 ingressEx cfgAttrsEx rfl rfl (by decide)⟩

/-- C5: whenever the guards pass (non-empty organization, a session, an
active workspace), `getRuns` performs exactly one API request — a `listRuns`
for the workspace with page size 100 and the related resources `plan`,
`apply`, `configuration_version.ingress_attributes` and `created_by` included
in the same request — regardless of whether the request then succeeds or
throws. -/
theorem C5_single_listRuns_request (tables : ExternalTables) (env : GetRunsEnv)
    (aw : WorkspaceTreeItem) (workspace : WorkspaceTreeItem)
    (hOrg : env.organization ≠ "") (hSession : env.session.isSome = true) :
    (getRuns tables env (some aw) workspace).apiCalls =
      [ApiCall.listRuns workspace.id 100
        ["plan", "apply", "configuration_version.ingress_attributes", "created_by"]] := by
  obtain ⟨s, hs⟩ := Option.isSome_iff_exists.mp hSession
  have horg : (env.organization == "") = false := by
    simp [hOrg]
  simp only [getRuns, horg, hs, Bool.false_eq_true, if_false]
  cases env.listRunsOutcome with
  | error e => rfl
  | ok runs => cases hruns : runs.data.isEmpty <;> simp [hruns]

/-- C5 witness: with a stored organization, a session, and a workspace
selected, the concrete environment produces exactly the expected request. -/
theorem C5_single_listRuns_request_witness :
    (getRuns tablesEx envOkEmpty (some wsEx) wsEx).apiCalls =
      [ApiCall.listRuns wsEx.id 100
        ["plan", "apply", "configuration_version.ingress_attributes", "created_by"]] :=
  C5_single_listRuns_request tablesEx envOkEmpty wsEx wsEx (by decide) rfl

/-- C6: the TFLint command registrar registers exactly one user-invoked
command, `terraform.tflint`, whose handler calls the external linter
integration with the shared language-server client handle and the telemetry
reporter; `dispose` disposes every registered command. -/
theorem C6_tflint_single_command (client : LanguageClient) (reporter : TelemetryReporter) :
    (TFLintCommands.new client reporter).commands =
      [{ name := "terraform.tflint",
         handler := CommandHandler.terraformTflint client reporter }] ∧
    (TFLintCommands.new client reporter).commands.length = 1 ∧
    TFLintCommands.dispose (TFLintCommands.new client reporter) =
      (TFLintCommands.new client reporter).commands :=
  ⟨rfl, rfl, rfl⟩

/-- C7: `refresh(workspaceItem)` sets the provider's active workspace to the
given item (`none` models calling it with no argument), fires the
tree-data-change event exactly once, and changes no other provider state. -/
theorem C7_refresh_sets_workspace_and_fires (state : ProviderState)
    (workspaceItem : Option WorkspaceTreeItem) :
    (RunTreeDataProvider.refresh state workspaceItem).1.activeWorkspace = workspaceItem ∧
    (RunTreeDataProvider.refresh state workspaceItem).1.handles = state.handles ∧
    (RunTreeDataProvider.refresh state workspaceItem).2 =
      [ProviderEvent.didChangeTreeData] :=
  ⟨rfl, rfl, rfl⟩

/-- Lift of `relRefId_plan_isSome` to an optional `included` array. -/
theorem relRefId_plan_isSome_opt (includedOpt : Option (List IncludedObject)) (run : Run)
    (h : planQualifies includedOpt run = true) :
    (relRefId run.relationships.plan).isSome = true := by
  cases includedOpt with
  | none => simp [planQualifies] at h
  | some included => exact relRefId_plan_isSome included run (by simpa [planQualifies] using h)

/-- Lift of `relRefId_apply_isSome` to an optional `included` array. -/
theorem relRefId_apply_isSome_opt (includedOpt : Option (List IncludedObject)) (run : Run)
    (h : applyQualifies includedOpt run = true) :
    (relRefId run.relationships.apply).isSome = true := by
  cases includedOpt with
  | none => simp [applyQualifies] at h
  | some included => exact relRefId_apply_isSome included run (by simpa [applyQualifies] using h)

/-- C8: for every run of a fetched page, the run item's `planId`,
`planAttributes` and plan context marker are set exactly when the response
carried an `included` array, the run has a `plan` relationship, and the
matched plan attributes have status `errored`, `canceled` or `finished`;
likewise the `applyId`, `applyAttributes` and apply context marker under the
apply qualification; in every other case those fields remain `undefined`. -/
theorem C8_plan_apply_gating (tables : ExternalTables)
    (includedOpt : Option (List IncludedObject)) (run : Run) (aw : WorkspaceTreeItem) :
    (buildRunItem tables includedOpt run aw).planId.isSome =
      planQualifies includedOpt run ∧
    (buildRunItem tables includedOpt run aw).planAttributes.isSome =
      planQualifies includedOpt run ∧
    (((buildRunItem tables includedOpt run aw).contextValue == some "hasPlan") ||
        ((buildRunItem tables includedOpt run aw).contextValue == some "hasPlanhasApply")) =
      planQualifies includedOpt run ∧
    (buildRunItem tables includedOpt run aw).applyId.isSome =
      applyQualifies includedOpt run ∧
    (buildRunItem tables includedOpt run aw).applyAttributes.isSome =
      applyQualifies includedOpt run ∧
    (((buildRunItem tables includedOpt run aw).contextValue == some "undefinedhasApply") ||
        ((buildRunItem tables includedOpt run aw).contextValue == some "hasPlanhasApply")) =
      applyQualifies includedOpt run := by
  obtain ⟨h1, h2, h3, h4, h5⟩ := buildRunItem_fields tables includedOpt run aw
  refine ⟨?_, ?_, ?_, ?_, ?_, ?_⟩
  · rw [h1]
    rcases Bool.eq_false_or_eq_true (planQualifies includedOpt run) with hb | hb
    · simp [hb, relRefId_plan_isSome_opt includedOpt run hb]
    · simp [hb]
  · rw [h2]
    rcases Bool.eq_false_or_eq_true (planQualifies includedOpt run) with hb | hb
    · simp [hb, findPlanOpt_isSome includedOpt run hb]
    · simp [hb]
  · rw [h5]
    rcases Bool.eq_false_or_eq_true (planQualifies includedOpt run) with hb1 | hb1 <;>
      rcases Bool.eq_false_or_eq_true (applyQualifies includedOpt run) with hb2 | hb2 <;>
      rw [hb1, hb2] <;> decide
  · rw [h3]
    rcases Bool.eq_false_or_eq_true (applyQualifies includedOpt run) with hb | hb
    · simp [hb, relRefId_apply_isSome_opt includedOpt run hb]
    · simp [hb]
  · rw [h4]
    rcases Bool.eq_false_or_eq_true (applyQualifies includedOpt run) with hb | hb
    · simp [hb, findApplyOpt_isSome includedOpt run hb]
    · simp [hb]
  · rw [h5]
    rcases Bool.eq_false_or_eq_true (planQualifies includedOpt run) with hb1 | hb1 <;>
      rcases Bool.eq_false_or_eq_true (applyQualifies includedOpt run) with hb2 | hb2 <;>
      rw [hb1, hb2] <;> decide

/-- C9: the context value of a constructed run tree item is `undefined` when
neither gate passes, `'hasPlan'` when only the plan qualifies,
`'hasPlanhasApply'` when both qualify, and `'undefinedhasApply'` when only
the apply qualifies — the JavaScript `+=` coerces the `undefined` context
value to the string `"undefined"` before appending `'hasApply'`. -/
theorem C9_contextValue_values (tables : ExternalTables)
    (includedOpt : Option (List IncludedObject)) (run : Run) (aw : WorkspaceTreeItem) :
    (buildRunItem tables includedOpt run aw).contextValue =
      match planQualifies includedOpt run, applyQualifies includedOpt run with
      | false, false => none
      | true, false => some "hasPlan"
      | true, true => some "hasPlanhasApply"
      | false, true => some "undefinedhasApply" :=
  (buildRunItem_fields tables includedOpt run aw).2.2.2.2

/-- C10: the run listing yields an empty result without any API request when
a precondition is unmet — `getChildren` with no element and no active
workspace, `getRuns` with an empty stored organization name, and `getRuns`
with no authentication session — and when the request succeeds with zero
runs the result is the single placeholder item labelled
`No runs found for <workspace name>`. -/
theorem C10_guards_and_placeholder (tables : ExternalTables) :
    (∀ state env, state.activeWorkspace = none →
      RunTreeDataProvider.getChildren tables state env none = emptyResult) ∧
    (∀ env awOpt workspace, env.organization = "" →
      getRuns tables env awOpt workspace = emptyResult) ∧
    (∀ env awOpt workspace, env.session = none →
      getRuns tables env awOpt workspace = emptyResult) ∧
    (∀ env aw workspace runs, env.organization ≠ "" → env.session.isSome = true →
      env.listRunsOutcome = Except.ok runs → runs.data = [] →
      (getRuns tables env (some aw) workspace).items =
        [TreeItem.placeholder ("No runs found for " ++ aw.attributes.name)
          ("No runs found for " ++ aw.attributes.name) "empty"]) := by
  refine ⟨?_, ?_, ?_, ?_⟩
  · intro state env h
    simp [RunTreeDataProvider.getChildren, h]
  · intro env awOpt workspace h
    simp [getRuns, h]
  · intro env awOpt workspace h
    unfold getRuns
    rcases Bool.eq_false_or_eq_true (env.organization == "") with ho | ho <;> simp [ho, h]
  · intro env aw workspace runs h1 h2 h3 h4
    obtain ⟨s, hs⟩ := Option.isSome_iff_exists.mp h2
    have horg : (env.organization == "") = false := by simp [h1]
    simp [getRuns, horg, hs, h3, h4]

/-- C10 witness: the three guards and the placeholder, each evaluated at a
concrete environment. -/
theorem C10_guards_and_placeholder_witness :
    RunTreeDataProvider.getChildren tablesEx stateNoWs envOkEmpty none = emptyResult ∧
    getRuns tablesEx envEmptyOrg (some wsEx) wsEx = emptyResult ∧
    getRuns tablesEx envNoSession (some wsEx) wsEx = emptyResult ∧
    (getRuns tablesEx envOkEmpty (some wsEx) wsEx).items =
      [TreeItem.placeholder ("No runs found for " ++ wsEx.attributes.name)
        ("No runs found for " ++ wsEx.attributes.name) "empty"] :=
  ⟨(C10_guards_and_placeholder tablesEx).1 stateNoWs envOkEmpty rfl,
   (C10_guards_and_placeholder tablesEx).2.1 envEmptyOrg (some wsEx) wsEx rfl,
   (C10_guards_and_placeholder tablesEx).2.2.1 envNoSession (some wsEx) wsEx rfl,
   (C10_guards_and_placeholder tablesEx).2.2.2 envOkEmpty wsEx wsEx
     { data := [] } (by decide) rfl rfl rfl⟩
